import Mathlib

/-!
Verification of the crawler's core domain logic as a shallow embedding.

Python strings are modelled as lists of characters (PyStr).  Fallible
constructors and service functions return Except values; collaborator
calls (content scraper, page summarizer, LLM completion) are modelled as
oracle functions passed in as arguments.  Machine integers in this code
are unbounded Python ints, so Nat is used directly.
-/

/-- Python strings, modelled as lists of characters. -/
abbrev PyStr := List Char

namespace PyStr

/-- Python str.lower, restricted to the ASCII casing the code relies on. -/
def lower (s : PyStr) : PyStr := s.map Char.toLower

/-- Python url.rstrip of the slash character: remove all trailing slashes. -/
def rstripSlash (s : PyStr) : PyStr := (s.reverse.dropWhile (· = '/')).reverse

/-- Helper for countSubstr: scan the string one character at a time;
skip > 0 means the current position lies inside an occurrence already
counted, so it is not tested.  After a match at the current position
the next pat.length - 1 positions are skipped, which yields Python's
non-overlapping left-to-right count. -/
def countSubstrAux (pat : PyStr) : PyStr → Nat → Nat
  | [], _ => 0
  | _ :: rest, skip + 1 => countSubstrAux pat rest skip
  | c :: rest, 0 =>
    if pat.isPrefixOf (c :: rest) then
      1 + countSubstrAux pat rest (pat.length - 1)
    else
      countSubstrAux pat rest 0

/-- Python str.count for a fixed nonempty pattern: number of
non-overlapping occurrences, scanning left to right.  (The code only
counts the pattern "://".) -/
def countSubstr (pat s : PyStr) : Nat := countSubstrAux pat s 0

/-- Python str.strip with no argument: drop leading and trailing
whitespace.  Python's default strip removes ASCII whitespace plus some
unicode; the code only ever meets ASCII. -/
def isPySpace (c : Char) : Bool :=
  c = ' ' || c = '\t' || c = '\n' || c = '\r' || c = '\x0b' || c = '\x0c'

/-- Python str.strip(). -/
def strip (s : PyStr) : PyStr :=
  ((s.dropWhile isPySpace).reverse.dropWhile isPySpace).reverse

end PyStr

/-! ## domain/types.py : NormalizedUrl -/

/-- The reason recorded in InvalidUrlError (domain/exceptions.py). -/
inductive UrlErrorReason
  | emptyUrl
  | notHttps
  | badFormat
deriving DecidableEq, Repr

/-- InvalidUrlError carries the offending url and a reason message. -/
structure InvalidUrlError where
  url : PyStr
  reason : UrlErrorReason
deriving DecidableEq, Repr

/-- NormalizedUrl.__new__ (domain/types.py lines 12-24): reject empty
urls, reject urls not starting with "https://", strip trailing slashes,
then require exactly one "://" substring in the stripped string. -/
def normalizedUrlNew (url : PyStr) : Except InvalidUrlError PyStr :=
  if url = [] then
    .error ⟨url, .emptyUrl⟩
  else if ¬ ("https://".toList.isPrefixOf url) then
    .error ⟨url, .notHttps⟩
  else
    let normalized_url := PyStr.rstripSlash url
    if ¬ (PyStr.countSubstr "://".toList normalized_url = 1) then
      .error ⟨url, .badFormat⟩
    else
      .ok normalized_url

/-- NormalizedUrl.try_new (domain/types.py lines 26-31): catch
InvalidUrlError and return None.  The constructor raises only
InvalidUrlError, so this is exactly the error case. -/
def normalizedUrlTryNew (url : PyStr) : Option PyStr :=
  match normalizedUrlNew url with
  | .ok u => some u
  | .error _ => none

/-- UrlType (domain/types.py lines 7-9). -/
inductive UrlType
  | HTML
  | PDF
deriving DecidableEq, Repr

/-- NormalizedUrl.type (domain/types.py lines 49-53): PDF when the
lowercased full url string ends with ".pdf", else HTML. -/
def urlType (u : PyStr) : UrlType :=
  if ".pdf".toList.isSuffixOf (PyStr.lower u) then .PDF else .HTML

/-! ## scraping/manual_link_extractor.py : the link classifier -/

/-- The netloc component of an absolute url, as urllib.parse.urlparse
computes it for http(s) urls: the text after the first "://" up to the
next "/", "?" or "#"; empty when the string has no "://" (a relative
reference). -/
def urlparseAfterScheme : PyStr → PyStr
  | [] => []
  | c :: rest =>
    if "://".toList.isPrefixOf (c :: rest) then rest.drop 2
    else urlparseAfterScheme rest

def urlparseNetloc (u : PyStr) : PyStr :=
  (urlparseAfterScheme u).takeWhile fun c => c ≠ '/' && c ≠ '?' && c ≠ '#'

/-- The path component of an absolute http(s) url: from the end of the
netloc up to the first "?" or "#". -/
def urlparsePath (u : PyStr) : PyStr :=
  (((urlparseAfterScheme u).dropWhile fun c => c ≠ '/' && c ≠ '?' && c ≠ '#').takeWhile
    fun c => c ≠ '?' && c ≠ '#')

/-- HtmlManualLinkExtractor.file_extensions (manual_link_extractor.py
lines 17-21). -/
def file_extensions : List PyStr :=
  [".pdf".toList, ".doc".toList, ".docx".toList, ".xls".toList, ".xlsx".toList,
   ".ppt".toList, ".pptx".toList, ".zip".toList, ".tar".toList, ".gz".toList,
   ".rar".toList, ".7z".toList, ".png".toList, ".jpg".toList, ".jpeg".toList,
   ".gif".toList, ".svg".toList, ".bmp".toList, ".webp".toList, ".ico".toList,
   ".csv".toList, ".txt".toList, ".rtf".toList]

/-- HtmlManualLinkExtractor._is_file_url (lines 44-47): lowercase the
url, parse, and test whether the path ends with any listed extension. -/
def is_file_url (url : PyStr) : Bool :=
  let path := urlparsePath (PyStr.lower url)
  file_extensions.any fun ext => ext.isSuffixOf path

/-- HtmlManualLinkExtractor._is_internal_url (lines 49-58): a url with
no netloc (a relative reference) is internal; otherwise internal exactly
when its netloc equals the base url's netloc (exact string equality of
hosts, not a registrable-domain comparison). -/
def is_internal_url (url base : PyStr) : Bool :=
  let n := urlparseNetloc url
  if n = [] then true
  else n = urlparseNetloc base

/-- The three output collections of the classifier. -/
inductive LinkCategory
  | internal
  | external
  | file
deriving DecidableEq, Repr

/-- Lines 91-102 of extract_links_from_html: for one survivor url
(already absolutized and deduplicated): normalize or silently drop,
then classify with the file-extension check first. -/
def categorize_url (url base : PyStr) : Option (PyStr × LinkCategory) :=
  match normalizedUrlTryNew url with
  | none => none
  | some normalized =>
    if is_file_url url then some (normalized, .file)
    else if is_internal_url url base then some (normalized, .internal)
    else some (normalized, .external)

/-- urllib.parse.urljoin restricted to the one shape the examples here
need: a paths-only relative reference (no scheme, no leading slash, no
dot segments, no query) against a base whose netloc is followed by a
slash; everything after the base's last "/" is replaced by the
reference. -/
def urljoinPlainRel (base rel : PyStr) : PyStr :=
  (base.reverse.dropWhile (· ≠ '/')).reverse ++ rel

/-- Lines 71-102: processing of one href that passed the
empty/fragment and exclusion filters.  An href starting with http:// or
https:// is used as is, otherwise it is resolved against the base url
(modelled by urljoinPlainRel for the relative shapes exercised here).
The seen_urls dedup is per-list and does not affect a single href's
classification. -/
def process_href (href base : PyStr) : Option (PyStr × LinkCategory) :=
  let url :=
    if "http://".toList.isPrefixOf href || "https://".toList.isPrefixOf href
    then href else urljoinPlainRel base href
  categorize_url url base

/-- Modelled from the spec: the "same-registrable-domain" comparison the
spec's classification rule names (spec section 4.1).  The registrable
domain of a host is taken as its last two dot-separated labels, which is
the eTLD+1 for the ordinary .com hosts compared here.  This definition
follows the spec's words, for comparison against is_internal_url. -/
def registrableDomain (host : PyStr) : PyStr :=
  List.intercalate ['.'] (((host.splitOn '.').reverse.take 2).reverse)

/-- Modelled from the spec: two absolute urls share a registrable domain
when the registrable domains of their netlocs coincide. -/
def sameRegistrableDomain (u base : PyStr) : Bool :=
  registrableDomain (urlparseNetloc u) = registrableDomain (urlparseNetloc base)

/-! ## domain/values.py : job results -/

inductive ReviewStatus
  | UNREVIEWED
  | APPROVED
deriving DecidableEq, Repr

inductive Relevancy
  | HIGH
  | MEDIUM
  | LOW
  | NOT_RELEVANT
deriving DecidableEq, Repr

inductive DataOrigin
  | ACADEMIC
  | GOVERNMENT
  | NEWS
  | BLOG
  | NON_PROFIT
deriving DecidableEq, Repr

inductive SourceFormat
  | RESEARCH_PAPER
  | ARTICLE
  | DATA_REPOSITORY
  | HISTORICAL_INFO
  | POLICY
  | LAW
  | NARRATIVE
  | DATA_VISUALIZATION
  | LETTER
  | GOVERNMENT_SOURCE
deriving DecidableEq, Repr

inductive FocusArea
  | NON_HUMAN_ANIMALS
  | HUMANS
  | ENVIRONMENT
  | COMMUNITY
  | BUSINESS
deriving DecidableEq, Repr

inductive DatasetPresence
  | PRESENT
  | ABSENT
deriving DecidableEq, Repr

/-- JobError (domain/values.py 60-63); created_at is an opaque tick. -/
structure JobError where
  message : PyStr := []
  created_at : Nat := 0
deriving DecidableEq, Repr

/-- ScrapeJobResult (domain/values.py 75-80). -/
structure ScrapeJobResult where
  created_at : Nat := 0
  markdown : PyStr
  internal_links : List PyStr := []
  external_links : List PyStr := []
  file_links : List PyStr := []
deriving DecidableEq, Repr

/-- ExtractJobResult (domain/values.py 83-95): JobResult plus
ExtractJobResultData plus LLMResponseMetadata fields. -/
structure ExtractJobResult where
  created_at : Nat := 0
  summary : PyStr
  key_facts : PyStr
  key_quotes : PyStr
  key_figures : PyStr
  trustworthiness : PyStr
  relevancy : Relevancy
  input_tokens : Nat
  output_tokens : Nat
  prompt : PyStr
  model : PyStr
  review_status : ReviewStatus := .UNREVIEWED
deriving DecidableEq, Repr

/-- SummarizeJobResult (domain/values.py 98-112). -/
structure SummarizeJobResult where
  created_at : Nat := 0
  summary : PyStr
  key_facts : PyStr
  key_quotes : PyStr
  key_figures : PyStr
  data_origin : DataOrigin
  source_format : SourceFormat
  focus_area : FocusArea
  dataset_presence : DatasetPresence
  input_tokens : Nat
  output_tokens : Nat
  prompt : PyStr
  model : PyStr
  review_status : ReviewStatus := .UNREVIEWED
deriving DecidableEq, Repr

/-- CrawlJobResult (domain/values.py 115-119). -/
structure CrawlJobResult where
  created_at : Nat := 0
  pages_crawled : Nat
  total_pages_found : Nat
  max_pages_limit : Nat
deriving DecidableEq, Repr

/-- The outcome union Optional[Union[JobError, TJobResult]]
(entities.py line 24), flattened over the concrete result types. -/
inductive JobOutcome
  | err : JobError → JobOutcome
  | scrape : ScrapeJobResult → JobOutcome
  | extract : ExtractJobResult → JobOutcome
  | summarize : SummarizeJobResult → JobOutcome
  | crawl : CrawlJobResult → JobOutcome
deriving DecidableEq, Repr

/-- Job (entities.py 27-31). -/
structure Job where
  job_id : PyStr
  created_at : Nat := 0
  outcome : Option JobOutcome := none
deriving DecidableEq, Repr

/-- Page (entities.py 43-46). -/
structure Page where
  url : PyStr
  jobs : List Job := []
deriving DecidableEq, Repr

/-- Source (entities.py 118-122). -/
structure Source where
  url : PyStr
  pages : List Page := []
  jobs : List Job := []
deriving DecidableEq, Repr

/-- The page-level jobs whose outcome is an ExtractJobResult, collected
per entities.py lines 126-132.  The Python guard is
"job.outcome and isinstance(job.outcome, ExtractJobResult)"; an
ExtractJobResult instance is always truthy and None is falsy, so the
guard selects exactly the extract outcomes. -/
def outcomeExtract? : Option JobOutcome → Option ExtractJobResult
  | some (.extract r) => some r
  | _ => none

/-- The ExtractJobResult outcomes across all pages of a source, in page
then job order (entities.py lines 126-132). -/
def extractResultsOf (s : Source) : List ExtractJobResult :=
  s.pages.flatMap fun p => p.jobs.filterMap fun j => outcomeExtract? j.outcome

/-- Source.all_extract_jobs_approved (entities.py 124-140): false when
no extract job with an ExtractJobResult outcome exists; otherwise true
exactly when every such result is APPROVED. -/
def all_extract_jobs_approved (s : Source) : Bool :=
  let extract_jobs := extractResultsOf s
  if extract_jobs.isEmpty then false
  else extract_jobs.all fun r => r.review_status = ReviewStatus.APPROVED

/-! ## entities.py : Source.crawl_source (lines 142-223) -/

/-- The loop state of Source.crawl_source (entities.py lines 156-160).
processed_pages is a Python set; only membership is ever queried, so a
list with membership models it. -/
structure CrawlState where
  url_queue : List PyStr
  candidate_internal_links : List PyStr
  processed_pages : List PyStr
  pages_crawled : Nat
  total_pages_found : Nat
deriving DecidableEq, Repr

/-- entities.py lines 181-184: walk the scraped internal links in
order; each link not already a candidate is appended to the candidate
list and total_pages_found is incremented. -/
def addNewLinks : List PyStr → List PyStr → Nat → List PyStr × Nat
  | [], cands, total => (cands, total)
  | l :: ls, cands, total =>
    if l ∈ cands then addNewLinks ls cands total
    else addNewLinks ls (cands ++ [l]) (total + 1)

/-- One iteration of the while loop of Source.crawl_source (entities.py
lines 162-206) for dequeued url u and remaining queue rest.  The scrape
and extract steps are oracles; an oracle returning none stands for a
JobError outcome of that per-page job (those exceptions are caught
inside scrape_page and extract_page and do not escape).  The extract
oracle receives the url, the scraped markdown and the filtered
candidate links, mirroring the call at lines 192-197.  When the extract
outcome IS an ExtractJobResult, line 202 reads
extract_job.outcome.next_internal_link — an attribute that
domain/values.py's ExtractJobResult does not declare and that no
repository code ever sets — so Python raises AttributeError there; the
exception escapes the loop body into the crawl-level try before
pages_crawled += 1 (line 206) is reached, so the step returns none
(abort).  The source's pages list (find-or-create at lines 166-174)
does not influence the loop state and is not modelled. -/
def crawlStep (scrape : PyStr → Option ScrapeJobResult)
    (extractOracle : PyStr → PyStr → List PyStr → Option ExtractJobResult)
    (u : PyStr) (rest : List PyStr) (st : CrawlState) : Option CrawlState :=
  let processed := u :: st.processed_pages
  match scrape u with
  | none =>
    some { st with url_queue := rest, processed_pages := processed,
                   pages_crawled := st.pages_crawled + 1 }
  | some sres =>
    let ct := addNewLinks sres.internal_links st.candidate_internal_links st.total_pages_found
    let filtered := ct.1.filter fun l => decide (l ∉ processed)
    match extractOracle u sres.markdown filtered with
    | none =>
      some { url_queue := rest, candidate_internal_links := ct.1, processed_pages := processed,
             pages_crawled := st.pages_crawled + 1, total_pages_found := ct.2 }
    | some _ => none

/-- How a crawl ends: ok means the while loop exited by its own guard
and a CrawlJobResult is read off the final state (entities.py 211-215);
jobError means an exception escaped the loop body into the crawl-level
except (entities.py 219-223) — the crawl job's outcome is a JobError,
no CrawlJobResult exists, and the remaining queue is discarded. -/
inductive CrawlEnd
  | ok : CrawlState → CrawlEnd
  | jobError : CrawlEnd
deriving DecidableEq, Repr

/-- The while loop (entities.py line 162) inside the crawl-level try:
run while the queue is nonempty and pages_crawled < max_pages, aborting
the whole crawl when an iteration raises.  fuel only bounds the
recursion; every completed iteration increments pages_crawled by one,
so fuel equal to max_pages - pages_crawled never runs out before the
guard fails. -/
def crawlLoop (scrape : PyStr → Option ScrapeJobResult)
    (extractOracle : PyStr → PyStr → List PyStr → Option ExtractJobResult)
    (max_pages : Nat) : Nat → CrawlState → CrawlEnd
  | 0, st => .ok st
  | fuel + 1, st =>
    match st.url_queue with
    | [] => .ok st
    | u :: rest =>
      if st.pages_crawled < max_pages then
        match crawlStep scrape extractOracle u rest st with
        | none => .jobError
        | some st' => crawlLoop scrape extractOracle max_pages fuel st'
      else .ok st

/-- Source.crawl_source (entities.py 156-223): initialize the queue
with the source url, candidates empty, nothing processed,
pages_crawled = 0, total_pages_found = 1, and run the loop inside the
crawl-level try. -/
def crawl_source (scrape : PyStr → Option ScrapeJobResult)
    (extractOracle : PyStr → PyStr → List PyStr → Option ExtractJobResult)
    (max_pages : Nat) (seed : PyStr) : CrawlEnd :=
  crawlLoop scrape extractOracle max_pages max_pages
    { url_queue := [seed], candidate_internal_links := [], processed_pages := [],
      pages_crawled := 0, total_pages_found := 1 }

/-- entities.py lines 211-215: the CrawlJobResult read off the final
loop state when the loop exits normally. -/
def crawlResultOf (st : CrawlState) (max_pages : Nat) : CrawlJobResult :=
  { pages_crawled := st.pages_crawled, total_pages_found := st.total_pages_found,
    max_pages_limit := max_pages }

/-! ## service/services.py : review and summary services -/

/-- The service-layer exceptions raised by the two reviewed operations
(service/exceptions.py). -/
inductive ServiceError
  | JobNotFound : PyStr → ServiceError
  | InvalidJobType : PyStr → ServiceError
  | InvalidSummaryValue : PyStr → ServiceError
deriving DecidableEq, Repr

/-- A background task dispatch.  The embedded service functions return
the list of dispatches they perform so that scheduling (or its absence)
is observable. -/
inductive Dispatch
  | autoSummarize : PyStr → Dispatch
deriving DecidableEq, Repr

/-- services.approve_job_review_status (services.py 324-338): look up
the job by id, require an ExtractJobResult or SummarizeJobResult
outcome, set review_status to APPROVED, commit.  The function body
contains no task-scheduling call, so the dispatch list is empty on
every path. -/
def approve_job_review_status (job_id : PyStr) (jobLookup : Option Job) :
    Except ServiceError (Job × List Dispatch) :=
  match jobLookup with
  | none => .error (.JobNotFound job_id)
  | some job =>
    match job.outcome with
    | some (.extract r) =>
      .ok ({ job with outcome := some (.extract { r with review_status := .APPROVED }) }, [])
    | some (.summarize r) =>
      .ok ({ job with outcome := some (.summarize { r with review_status := .APPROVED }) }, [])
    | _ => .error (.InvalidJobType job_id)

/-- services.edit_job_outcome_summary (services.py 341-358): reject an
empty or whitespace-only summary before the job lookup; then look up
the job, require an ExtractJobResult or SummarizeJobResult outcome, and
overwrite its summary with the stripped text. -/
def edit_job_outcome_summary (job_id : PyStr) (summary : PyStr) (jobLookup : Option Job) :
    Except ServiceError Job :=
  if summary = [] ∨ PyStr.strip summary = [] then
    .error (.InvalidSummaryValue summary)
  else
    match jobLookup with
    | none => .error (.JobNotFound job_id)
    | some job =>
      match job.outcome with
      | some (.extract r) =>
        .ok { job with outcome := some (.extract { r with summary := PyStr.strip summary }) }
      | some (.summarize r) =>
        .ok { job with outcome := some (.summarize { r with summary := PyStr.strip summary }) }
      | _ => .error (.InvalidJobType job_id)

/-! ## nlp_processing/structured_completion.py -/

/-- Trace of one _completion_with_retry run: the final result, how many
completion calls were made, and the seconds slept between attempts. -/
structure RetryTrace (R E : Type) where
  result : Except E R
  calls : Nat
  sleeps : List Nat

/-- _completion_with_retry's loop (structured_completion.py 19-36),
from a given attempt index: call the completion oracle; return on
success; on an exception before the last attempt sleep 120 seconds and
retry; on the last attempt re-raise that same exception.
attemptOutcome i is the outcome of the (i+1)-th call. -/
def completionWithRetryGo {R E : Type} (attemptOutcome : Nat → Except E R)
    (max_retries attempt : Nat) : RetryTrace R E :=
  match attemptOutcome attempt with
  | .ok r => { result := .ok r, calls := 1, sleeps := [] }
  | .error e =>
    if h : attempt < max_retries - 1 then
      let t := completionWithRetryGo attemptOutcome max_retries (attempt + 1)
      { result := t.result, calls := t.calls + 1, sleeps := 120 :: t.sleeps }
    else
      { result := .error e, calls := 1, sleeps := [] }
termination_by max_retries - attempt
decreasing_by omega

/-- _completion_with_retry (structured_completion.py 19-36) with
max_retries = 3, starting at attempt 0. -/
def completion_with_retry {R E : Type} (attemptOutcome : Nat → Except E R) : RetryTrace R E :=
  completionWithRetryGo attemptOutcome 3 0

/-- Minimal JSON values for the decoded model payload. -/
inductive Json
  | obj : List (PyStr × Json) → Json
  | arr : List Json → Json
  | str : PyStr → Json
  | num : Int → Json

/-- The error leaving complete's validation phase: a
msgspec.ValidationError from the second convert, or the AttributeError
and IndexError Python raises when indexing a non-object or empty
payload by its first key. -/
inductive ValidateError (E : Type)
  | validation : E → ValidateError E
  | notAnObject : ValidateError E
deriving DecidableEq, Repr

/-- content[list(content.keys())[0]] : the value under the payload's
first key, when the payload is a nonempty object. -/
def firstKeyValue : Json → Option Json
  | .obj ((_, v) :: _) => some v
  | _ => none

/-- LiteLLMStructuredCompletion.complete's response handling
(structured_completion.py 73-88): convert the decoded payload to the
response type; on a ValidationError, index the payload by its first key
and convert that value, with no further fallback. -/
def convertWithUnwrap {R E : Type} (convert : Json → Except E R) (content : Json) :
    Except (ValidateError E) R :=
  match convert content with
  | .ok v => .ok v
  | .error _ =>
    match firstKeyValue content with
    | none => .error .notAnObject
    | some inner =>
      match convert inner with
      | .ok v => .ok v
      | .error e => .error (.validation e)

/-! ## Concrete collaborator oracles and states used in closed theorems -/

/-- A scrape oracle that succeeds on every url and reports three
internal links on the same domain. -/
def scrapeThreeLinks : PyStr → Option ScrapeJobResult := fun _ =>
  some { markdown := "m".toList,
         internal_links := ["https://example.com/a".toList, "https://example.com/b".toList,
                            "https://example.com/c".toList] }

/-- A scrape oracle that succeeds with no discovered links. -/
def scrapeNoLinks : PyStr → Option ScrapeJobResult := fun _ =>
  some { markdown := [] }

/-- A scrape oracle that fails (JobError) on every url. -/
def scrapeAlwaysFails : PyStr → Option ScrapeJobResult := fun _ => none

/-- An extract oracle whose job always ends in a JobError (which is in
fact what every extract does in this snapshot: extract_page's call to
summarize_page mismatches the PageSummarizer signature and the
TypeError is caught at entities.py 111-115). -/
def extractAlwaysFails : PyStr → PyStr → List PyStr → Option ExtractJobResult := fun _ _ _ =>
  none

/-- An extract oracle whose job always ends in an ExtractJobResult with
placeholder content. -/
def extractOkStd : PyStr → PyStr → List PyStr → Option ExtractJobResult := fun _ _ _ =>
  some { summary := "s".toList, key_facts := [], key_quotes := [], key_figures := [],
         trustworthiness := [], relevancy := .HIGH, input_tokens := 0, output_tokens := 0,
         prompt := [], model := [] }

/-- An unreviewed extract result with placeholder content. -/
def sampleExtractUnreviewed : ExtractJobResult :=
  { summary := "s".toList, key_facts := [], key_quotes := [], key_figures := [],
    trustworthiness := [], relevancy := .HIGH, input_tokens := 0, output_tokens := 0,
    prompt := [], model := [] }

/-- A job holding sampleExtractUnreviewed as its outcome. -/
def sampleExtractJob : Job :=
  { job_id := "j1".toList, outcome := some (.extract sampleExtractUnreviewed) }

/-- The same job after its review status is set to APPROVED. -/
def sampleExtractJobApproved : Job :=
  { job_id := "j1".toList,
    outcome := some (.extract { sampleExtractUnreviewed with review_status := .APPROVED }) }

/-- A one-page source whose only page-level job is the approved extract
job: the state right after approving the source's last unapproved
extract job. -/
def sampleSourceApproved : Source :=
  { url := "https://example.com".toList,
    pages := [{ url := "https://example.com/p".toList, jobs := [sampleExtractJobApproved] }] }

/-- A completion oracle that raises on every attempt, with the attempt
index as the error. -/
def sampleFailOracle : Nat → Except Nat Nat := fun i => .error i

/-- A schema-validation oracle: numbers validate (to 1), anything else
raises ValidationError 7.  Models a shape whose payload arrived wrapped
under one extraneous top-level key. -/
def sampleConvert : Json → Except Nat Nat := fun j =>
  match j with
  | .num _ => .ok 1
  | _ => .error 7

/-! ## Helper lemmas -/

theorem dropWhile_dropWhile_self {α : Type} (p : α → Bool) (l : List α) :
    (l.dropWhile p).dropWhile p = l.dropWhile p := by
  induction l with
  | nil => rfl
  | cons c cs ih =>
    by_cases h : p c
    · simp [List.dropWhile_cons, h, ih]
    · simp [List.dropWhile_cons, h]

theorem rstripSlash_idem (s : PyStr) :
    PyStr.rstripSlash (PyStr.rstripSlash s) = PyStr.rstripSlash s := by
  unfold PyStr.rstripSlash
  rw [List.reverse_reverse, dropWhile_dropWhile_self]

theorem rstripSlash_append (a b : PyStr) :
    PyStr.rstripSlash (a ++ b) =
      if PyStr.rstripSlash b = [] then PyStr.rstripSlash a else a ++ PyStr.rstripSlash b := by
  unfold PyStr.rstripSlash
  rw [List.reverse_append, List.dropWhile_append]
  by_cases h : b.reverse.dropWhile (fun c => decide (c = '/')) = []
  · simp [h]
  · simp [h, List.isEmpty_iff, List.reverse_append]

theorem rstripSlash_getLast? (s : PyStr) :
    (PyStr.rstripSlash s).getLast? ≠ some '/' := by
  unfold PyStr.rstripSlash
  rw [List.getLast?_reverse]
  intro hc
  have h := List.head?_dropWhile_not (fun c => decide (c = '/')) s.reverse
  rw [hc] at h
  simp at h

theorem normalizedUrlNew_eval_ok (s : PyStr) (h1 : s ≠ [])
    (h2 : "https://".toList <+: s)
    (h3 : PyStr.countSubstr "://".toList (PyStr.rstripSlash s) = 1) :
    normalizedUrlNew s = .ok (PyStr.rstripSlash s) := by
  unfold normalizedUrlNew
  rw [if_neg h1, if_neg (not_not_intro (List.isPrefixOf_iff_prefix.mpr h2))]
  dsimp only
  rw [if_neg (not_not_intro h3)]

theorem normalizedUrlNew_eval_badFormat (s : PyStr) (h1 : s ≠ [])
    (h2 : "https://".toList <+: s)
    (h3 : ¬ PyStr.countSubstr "://".toList (PyStr.rstripSlash s) = 1) :
    normalizedUrlNew s = .error ⟨s, .badFormat⟩ := by
  unfold normalizedUrlNew
  rw [if_neg h1, if_neg (not_not_intro (List.isPrefixOf_iff_prefix.mpr h2))]
  dsimp only
  rw [if_pos h3]

theorem normalizedUrlNew_eval_notHttps (s : PyStr) (h1 : s ≠ [])
    (h2 : ¬ "https://".toList <+: s) :
    normalizedUrlNew s = .error ⟨s, .notHttps⟩ := by
  unfold normalizedUrlNew
  rw [if_neg h1, if_pos (fun hb => h2 (List.isPrefixOf_iff_prefix.mp hb))]

theorem normalizedUrlNew_ok_iff (s v : PyStr) :
    normalizedUrlNew s = .ok v ↔
      s ≠ [] ∧ "https://".toList <+: s ∧
      PyStr.countSubstr "://".toList (PyStr.rstripSlash s) = 1 ∧ v = PyStr.rstripSlash s := by
  constructor
  · intro h
    have h1 : s ≠ [] := by
      intro hs
      subst hs
      simp [normalizedUrlNew] at h
    have h2 : "https://".toList <+: s := by
      by_contra hc
      rw [normalizedUrlNew_eval_notHttps s h1 hc] at h
      cases h
    have h3 : PyStr.countSubstr "://".toList (PyStr.rstripSlash s) = 1 := by
      by_contra hc
      rw [normalizedUrlNew_eval_badFormat s h1 h2 hc] at h
      cases h
    rw [normalizedUrlNew_eval_ok s h1 h2 h3] at h
    exact ⟨h1, h2, h3, (Except.ok.inj h).symm⟩
  · rintro ⟨h1, h2, h3, rfl⟩
    exact normalizedUrlNew_eval_ok s h1 h2 h3

/-! ## C7 : NormalizedUrl construction invariants -/

/-- C7: NormalizedUrl construction succeeds only if the input is
non-empty, starts with the https scheme, and contains exactly one "://"
substring after trailing slashes are stripped; "https://a.com/x/" and
"https://a.com/x" construct identical values; empty or non-https input
always fails with an InvalidUrlError; and try_new returns none exactly
when construction would fail. -/
theorem c7_normalized_url_invariants :
    (∀ s v : PyStr, normalizedUrlNew s = .ok v →
        s ≠ [] ∧ "https://".toList.isPrefixOf s = true ∧
        PyStr.countSubstr "://".toList (PyStr.rstripSlash s) = 1) ∧
    normalizedUrlNew "https://a.com/x/".toList = normalizedUrlNew "https://a.com/x".toList ∧
    (∀ s : PyStr, (s = [] ∨ ¬ "https://".toList.isPrefixOf s = true) →
        ∃ e : InvalidUrlError, normalizedUrlNew s = .error e) ∧
    (∀ s : PyStr, normalizedUrlTryNew s = none ↔ ∃ e, normalizedUrlNew s = .error e) := by
  refine ⟨?_, rfl, ?_, ?_⟩
  · intro s v h
    rw [normalizedUrlNew_ok_iff] at h
    exact ⟨h.1, List.isPrefixOf_iff_prefix.mpr h.2.1, h.2.2.1⟩
  · intro s h
    by_cases h1 : s = []
    · subst h1
      exact ⟨⟨[], .emptyUrl⟩, rfl⟩
    · rcases h with h | h
      · exact absurd h h1
      · refine ⟨⟨s, .notHttps⟩, ?_⟩
        exact normalizedUrlNew_eval_notHttps s h1 fun hc =>
          h (List.isPrefixOf_iff_prefix.mpr hc)
  · intro s
    unfold normalizedUrlTryNew
    cases hn : normalizedUrlNew s <;> simp [hn]

/-- Witness for C7 at concrete inputs. -/
theorem c7_witness :
    ("https://a.com/".toList ≠ [] ∧
      "https://".toList.isPrefixOf "https://a.com/".toList = true ∧
      PyStr.countSubstr "://".toList (PyStr.rstripSlash "https://a.com/".toList) = 1) ∧
    (∃ e : InvalidUrlError, normalizedUrlNew "http://a.com".toList = .error e) ∧
    (normalizedUrlTryNew "".toList = none ↔ ∃ e, normalizedUrlNew "".toList = .error e) :=
  ⟨c7_normalized_url_invariants.1 "https://a.com/".toList "https://a.com".toList rfl,
   c7_normalized_url_invariants.2.2.1 "http://a.com".toList (Or.inr (by decide)),
   c7_normalized_url_invariants.2.2.2 "".toList⟩

/-! ## C10 : normalization is idempotent -/

/-- C10: for every string accepted by the NormalizedUrl constructor,
constructing again from the resulting value succeeds and yields the
same value (a fixed point of normalization), and the constructed value
has no trailing slash. -/
theorem c10_normalization_idempotent :
    ∀ s v : PyStr, normalizedUrlNew s = .ok v →
      normalizedUrlNew v = .ok v ∧ v.getLast? ≠ some '/' := by
  intro s v h
  rw [normalizedUrlNew_ok_iff] at h
  obtain ⟨h1, h2, h3, rfl⟩ := h
  refine ⟨?_, rstripSlash_getLast? s⟩
  obtain ⟨t, rfl⟩ := h2
  by_cases hb : PyStr.rstripSlash t = []
  · rw [rstripSlash_append, if_pos hb] at h3
    exact absurd h3 (by decide)
  · have hv : PyStr.rstripSlash ("https://".toList ++ t) =
        "https://".toList ++ PyStr.rstripSlash t := by
      rw [rstripSlash_append, if_neg hb]
    have hfix : PyStr.rstripSlash (PyStr.rstripSlash ("https://".toList ++ t)) =
        PyStr.rstripSlash ("https://".toList ++ t) := rstripSlash_idem _
    have h1' : PyStr.rstripSlash ("https://".toList ++ t) ≠ [] := by
      rw [hv]
      simp
    have h2' : "https://".toList <+: PyStr.rstripSlash ("https://".toList ++ t) := by
      rw [hv]
      exact List.prefix_append _ _
    have h3' : PyStr.countSubstr "://".toList
        (PyStr.rstripSlash (PyStr.rstripSlash ("https://".toList ++ t))) = 1 := by
      rw [hfix]
      exact h3
    have hres := normalizedUrlNew_eval_ok _ h1' h2' h3'
    rw [hfix] at hres
    exact hres

/-- Witness for C10 at a concrete input with two trailing slashes. -/
theorem c10_witness :
    normalizedUrlNew "https://a.com/x".toList = .ok "https://a.com/x".toList ∧
    "https://a.com/x".toList.getLast? ≠ some '/' :=
  c10_normalization_idempotent "https://a.com/x//".toList "https://a.com/x".toList rfl

/-! ## C9 : url type classification -/

/-- C9 counterexample: "https://a.com/doc.pdf?v=1" constructs a valid
NormalizedUrl whose path component ends in ".pdf" (case-insensitively),
yet its type is HTML, because the code tests the full url string rather
than the path: a query string after the path changes the
classification, contradicting the claim. -/
theorem c9_counterexample :
    normalizedUrlNew "https://a.com/doc.pdf?v=1".toList =
      .ok "https://a.com/doc.pdf?v=1".toList ∧
    ".pdf".toList.isSuffixOf (PyStr.lower (urlparsePath "https://a.com/doc.pdf?v=1".toList)) =
      true ∧
    urlType "https://a.com/doc.pdf?v=1".toList = UrlType.HTML :=
  ⟨rfl, rfl, rfl⟩

/-- C9 amended: a NormalizedUrl's type is PDF exactly when the
lowercased full url string ends in ".pdf"; consequently appending a
query string such as "?v=1" after a ".pdf" path forces HTML — the
presence of a query or fragment after the path does change the
classification. -/
theorem c9_type_by_full_string :
    (∀ u : PyStr, urlType u = UrlType.PDF ↔
        ".pdf".toList.isSuffixOf (PyStr.lower u) = true) ∧
    (∀ u : PyStr, urlType (u ++ "?v=1".toList) = UrlType.HTML) := by
  constructor
  · intro u
    unfold urlType
    split_ifs with h
    · exact iff_of_true rfl h
    · exact iff_of_false (by simp) h
  · intro u
    have hlow : PyStr.lower (u ++ "?v=1".toList) = PyStr.lower u ++ "?v=1".toList := by
      unfold PyStr.lower
      rw [List.map_append]
      rfl
    have hsuf : ¬ (".pdf".toList.isSuffixOf (PyStr.lower (u ++ "?v=1".toList)) = true) := by
      rw [hlow, List.isSuffixOf_iff_suffix]
      rintro ⟨t, ht⟩
      have htail := (List.append_inj' ht (by rfl)).2
      exact absurd htail (by decide)
    unfold urlType
    rw [if_neg hsuf]

/-! ## C4 : all_extract_jobs_approved -/

theorem outcomeExtract?_eq_some (o : Option JobOutcome) (r : ExtractJobResult) :
    outcomeExtract? o = some r ↔ o = some (.extract r) := by
  cases o with
  | none => simp [outcomeExtract?]
  | some x => cases x <;> simp [outcomeExtract?]

theorem mem_extractResultsOf (s : Source) (r : ExtractJobResult) :
    r ∈ extractResultsOf s ↔ ∃ p ∈ s.pages, ∃ j ∈ p.jobs, j.outcome = some (.extract r) := by
  unfold extractResultsOf
  simp [List.mem_flatMap, List.mem_filterMap, outcomeExtract?_eq_some]

/-- C4: all_extract_jobs_approved is true iff at least one page-level
job has an ExtractJobResult outcome and every such outcome is APPROVED;
on a source with zero pages it is false. -/
theorem c4_all_extract_jobs_approved_iff :
    (∀ s : Source, all_extract_jobs_approved s = true ↔
      ((∃ p ∈ s.pages, ∃ j ∈ p.jobs, ∃ r : ExtractJobResult, j.outcome = some (.extract r)) ∧
       ∀ p ∈ s.pages, ∀ j ∈ p.jobs, ∀ r : ExtractJobResult,
         j.outcome = some (.extract r) → r.review_status = ReviewStatus.APPROVED)) ∧
    (∀ s : Source, s.pages = [] → all_extract_jobs_approved s = false) := by
  constructor
  · intro s
    unfold all_extract_jobs_approved
    by_cases he : extractResultsOf s = []
    · rw [he]
      simp only [List.isEmpty_nil, if_true]
      constructor
      · intro h
        cases h
      · rintro ⟨⟨p, hp, j, hj, r, hr⟩, -⟩
        have hmem : r ∈ extractResultsOf s := (mem_extractResultsOf s r).mpr ⟨p, hp, j, hj, hr⟩
        rw [he] at hmem
        cases hmem
    · rw [if_neg (by simpa [List.isEmpty_iff] using he)]
      rw [List.all_eq_true]
      constructor
      · intro h
        constructor
        · obtain ⟨r, hr⟩ := List.exists_mem_of_ne_nil _ he
          obtain ⟨p, hp, j, hj, hout⟩ := (mem_extractResultsOf s r).mp hr
          exact ⟨p, hp, j, hj, r, hout⟩
        · intro p hp j hj r hout
          have hmem : r ∈ extractResultsOf s :=
            (mem_extractResultsOf s r).mpr ⟨p, hp, j, hj, hout⟩
          simpa using h r hmem
      · rintro ⟨-, hall⟩ r hmem
        obtain ⟨p, hp, j, hj, hout⟩ := (mem_extractResultsOf s r).mp hmem
        simpa using hall p hp j hj r hout
  · intro s hs
    unfold all_extract_jobs_approved extractResultsOf
    rw [hs]
    rfl

/-- Witness for C4 at concrete sources: the one-approved-job source
satisfies both sides of the iff, and the zero-page source is false. -/
theorem c4_witness :
    all_extract_jobs_approved sampleSourceApproved = true ∧
    all_extract_jobs_approved { url := "https://z.com".toList } = false := by
  constructor
  · apply (c4_all_extract_jobs_approved_iff.1 sampleSourceApproved).mpr
    constructor
    · exact ⟨{ url := "https://example.com/p".toList, jobs := [sampleExtractJobApproved] },
        by decide, sampleExtractJobApproved, by decide,
        { sampleExtractUnreviewed with review_status := .APPROVED }, rfl⟩
    · intro p hp j hj r hout
      simp only [sampleSourceApproved, List.mem_singleton] at hp
      subst hp
      simp only [List.mem_singleton] at hj
      subst hj
      simp only [sampleExtractJobApproved, Option.some.injEq, JobOutcome.extract.injEq] at hout
      subst hout
      rfl
  · exact c4_all_extract_jobs_approved_iff.2 { url := "https://z.com".toList } rfl

/-! ## C6 : edit_summary -/

/-- C6: edit_job_outcome_summary rejects a whitespace-only summary with
InvalidSummaryValue before the job lookup (for every lookup outcome);
for non-blank text on an existing job it fails with InvalidJobType
unless the outcome is an ExtractJobResult or SummarizeJobResult, and
otherwise overwrites exactly the outcome's summary field with the
stripped text. -/
theorem c6_edit_summary :
    (∀ job_id summary : PyStr, ∀ jobLookup : Option Job, PyStr.strip summary = [] →
        edit_job_outcome_summary job_id summary jobLookup =
          .error (.InvalidSummaryValue summary)) ∧
    (∀ job_id summary : PyStr, ∀ job : Job, PyStr.strip summary ≠ [] →
        ((∀ r : ExtractJobResult, job.outcome ≠ some (.extract r)) →
         (∀ r : SummarizeJobResult, job.outcome ≠ some (.summarize r)) →
          edit_job_outcome_summary job_id summary (some job) = .error (.InvalidJobType job_id)) ∧
        (∀ r : ExtractJobResult, job.outcome = some (.extract r) →
          edit_job_outcome_summary job_id summary (some job) =
            .ok { job with outcome := some (.extract { r with summary := PyStr.strip summary }) }) ∧
        (∀ r : SummarizeJobResult, job.outcome = some (.summarize r) →
          edit_job_outcome_summary job_id summary (some job) =
            .ok { job with
                  outcome := some (.summarize { r with summary := PyStr.strip summary }) })) := by
  constructor
  · intro job_id summary jobLookup h
    unfold edit_job_outcome_summary
    rw [if_pos (Or.inr h)]
  · intro job_id summary job h
    have hcond : ¬ (summary = [] ∨ PyStr.strip summary = []) := by
      rintro (rfl | hs)
      · exact h rfl
      · exact h hs
    refine ⟨?_, ?_, ?_⟩
    · intro hext hsum
      unfold edit_job_outcome_summary
      rw [if_neg hcond]
      dsimp only
      cases hout : job.outcome with
      | none => rfl
      | some x =>
        cases x with
        | err e => rfl
        | scrape r => rfl
        | crawl r => rfl
        | extract r => exact absurd hout (hext r)
        | summarize r => exact absurd hout (hsum r)
    · intro r hout
      unfold edit_job_outcome_summary
      rw [if_neg hcond]
      dsimp only
      rw [hout]
    · intro r hout
      unfold edit_job_outcome_summary
      rw [if_neg hcond]
      dsimp only
      rw [hout]

/-- Witness for C6 at concrete inputs: a whitespace summary is rejected
for an absent job, and a real edit overwrites the summary of the sample
extract job. -/
theorem c6_witness :
    edit_job_outcome_summary "j9".toList "   ".toList none =
      .error (.InvalidSummaryValue "   ".toList) ∧
    edit_job_outcome_summary "j1".toList " new ".toList (some sampleExtractJob) =
      .ok { sampleExtractJob with
            outcome := some (.extract { sampleExtractUnreviewed with summary := "new".toList }) } := by
  constructor
  · exact c6_edit_summary.1 "j9".toList "   ".toList none rfl
  · have h := (c6_edit_summary.2 "j1".toList " new ".toList sampleExtractJob
      (by decide)).2.1 sampleExtractUnreviewed rfl
    simpa using h

/-! ## C2 : approval never schedules the auto-summarize cascade -/

/-- C2: evaluating the approval service at the failing input.  Approving
the source's only (hence last unapproved) extract job succeeds and makes
all_extract_jobs_approved true on the resulting source, yet the list of
dispatched background tasks is empty: approve_job_review_status contains
no scheduling call, so no auto-summarize dispatch is ever made, where
the claim requires exactly one. -/
theorem c2_approve_schedules_no_dispatch :
    approve_job_review_status "j1".toList (some sampleExtractJob) =
      .ok (sampleExtractJobApproved, ([] : List Dispatch)) ∧
    all_extract_jobs_approved sampleSourceApproved = true ∧
    ¬ ∃ jd : Job × List Dispatch,
        approve_job_review_status "j1".toList (some sampleExtractJob) = .ok jd ∧
        jd.2.length = 1 := by
  refine ⟨rfl, rfl, ?_⟩
  rintro ⟨jd, hjd, hlen⟩
  have h0 : approve_job_review_status "j1".toList (some sampleExtractJob) =
      .ok (sampleExtractJobApproved, ([] : List Dispatch)) := rfl
  rw [h0] at hjd
  have hjd2 : jd = (sampleExtractJobApproved, ([] : List Dispatch)) :=
    (Except.ok.inj hjd).symm
  subst hjd2
  exact absurd hlen (by decide)

/-! ## C5 : link classification -/

theorem is_internal_url_eq_true_iff (url base : PyStr) (h : urlparseNetloc url ≠ []) :
    is_internal_url url base = true ↔ urlparseNetloc url = urlparseNetloc base := by
  unfold is_internal_url
  rw [if_neg h]
  simp

/-- C5 counterexample: the survivor href https://sub.example.com/page on
page https://example.com shares the page url's registrable domain
(example.com) and is not a file url, so the claim classifies it
internal; the code compares netlocs by exact string equality and
classifies it external. -/
theorem c5_counterexample :
    categorize_url "https://sub.example.com/page".toList "https://example.com".toList =
      some ("https://sub.example.com/page".toList, LinkCategory.external) ∧
    sameRegistrableDomain "https://sub.example.com/page".toList "https://example.com".toList =
      true ∧
    is_file_url "https://sub.example.com/page".toList = false := by
  refine ⟨rfl, ?_, rfl⟩
  decide

/-- C5 amended: a survivor failing NormalizedUrl validation is dropped;
a validated survivor whose lowercased path ends in a listed file
extension is classified file, this check preceding any domain
comparison; otherwise an absolute survivor (nonempty netloc) is
internal exactly when its netloc equals the base url's netloc by exact
string comparison (not registrable-domain), else external.  The
relative href report.pdf against https://example.com/docs resolves on
the same host yet is classified file, never internal. -/
theorem c5_classification :
    (∀ url base : PyStr, normalizedUrlTryNew url = none → categorize_url url base = none) ∧
    (∀ url base n : PyStr, normalizedUrlTryNew url = some n → is_file_url url = true →
        categorize_url url base = some (n, LinkCategory.file)) ∧
    (∀ url base n : PyStr, normalizedUrlTryNew url = some n → is_file_url url = false →
        urlparseNetloc url ≠ [] →
        (categorize_url url base = some (n, LinkCategory.internal) ↔
          urlparseNetloc url = urlparseNetloc base)) ∧
    (∀ url base n : PyStr, normalizedUrlTryNew url = some n → is_file_url url = false →
        urlparseNetloc url ≠ [] → urlparseNetloc url ≠ urlparseNetloc base →
        categorize_url url base = some (n, LinkCategory.external)) ∧
    process_href "report.pdf".toList "https://example.com/docs".toList =
      some ("https://example.com/report.pdf".toList, LinkCategory.file) := by
  refine ⟨?_, ?_, ?_, ?_, rfl⟩
  · intro url base h
    unfold categorize_url
    rw [h]
  · intro url base n h hf
    unfold categorize_url
    rw [h]
    dsimp only
    rw [if_pos hf]
  · intro url base n h hf hn
    unfold categorize_url
    rw [h]
    dsimp only
    rw [if_neg (by simp [hf])]
    by_cases hi : is_internal_url url base = true
    · rw [if_pos hi]
      exact iff_of_true rfl ((is_internal_url_eq_true_iff url base hn).mp hi)
    · rw [if_neg hi]
      refine iff_of_false (by simp) ?_
      intro hc
      exact hi ((is_internal_url_eq_true_iff url base hn).mpr hc)
  · intro url base n h hf hn hne
    unfold categorize_url
    rw [h]
    dsimp only
    rw [if_neg (by simp [hf])]
    rw [if_neg fun hi => hne ((is_internal_url_eq_true_iff url base hn).mp hi)]

/-- Witness for C5 at concrete survivors: a same-domain pdf is file, a
same-domain page is internal, a foreign domain is external, and an
http url is dropped. -/
theorem c5_witness :
    categorize_url "https://example.com/a.pdf".toList "https://example.com".toList =
      some ("https://example.com/a.pdf".toList, LinkCategory.file) ∧
    categorize_url "https://example.com/x".toList "https://example.com".toList =
      some ("https://example.com/x".toList, LinkCategory.internal) ∧
    categorize_url "https://other.org/x".toList "https://example.com".toList =
      some ("https://other.org/x".toList, LinkCategory.external) ∧
    categorize_url "http://example.com/x".toList "https://example.com".toList = none :=
  ⟨c5_classification.2.1 "https://example.com/a.pdf".toList "https://example.com".toList
      "https://example.com/a.pdf".toList rfl rfl,
   (c5_classification.2.2.1 "https://example.com/x".toList "https://example.com".toList
      "https://example.com/x".toList rfl rfl (by decide)).mpr (by decide),
   c5_classification.2.2.2.1 "https://other.org/x".toList "https://example.com".toList
      "https://other.org/x".toList rfl rfl (by decide) (by decide),
   c5_classification.1 "http://example.com/x".toList "https://example.com".toList rfl⟩

/-! ## C8 : structured-completion retry and unwrap -/

theorem completionWithRetryGo_calls_le {R E : Type} (oracle : Nat → Except E R) :
    ∀ f m a : Nat, m - a ≤ f →
      (completionWithRetryGo oracle m a).calls ≤ max (m - a) 1 := by
  intro f
  induction f with
  | zero =>
    intro m a hf
    unfold completionWithRetryGo
    cases oracle a with
    | ok r => simp
    | error e =>
      dsimp only
      rw [dif_neg (by omega)]
      simp
  | succ f ih =>
    intro m a hf
    unfold completionWithRetryGo
    cases oracle a with
    | ok r => simp
    | error e =>
      dsimp only
      by_cases hlt : a < m - 1
      · rw [dif_pos hlt]
        dsimp only
        have h2 := ih m (a + 1) (by omega)
        rw [Nat.max_eq_left (by omega : 1 ≤ m - (a + 1))] at h2
        rw [Nat.max_eq_left (by omega : 1 ≤ m - a)]
        omega
      · rw [dif_neg hlt]
        simp

/-- C8: the completion wrapper makes at most 3 calls; when all three
attempts raise, it sleeps 120 seconds between attempts and re-raises
the third attempt's error unmodified; a failure followed by a success
stops after the second call with one 120-second sleep; and when a
payload wrapped under a single extraneous top-level key fails schema
validation, the value under that key is validated exactly once more,
its outcome final. -/
theorem c8_retry_and_unwrap :
    (∀ (R E : Type) (oracle : Nat → Except E R), (completion_with_retry oracle).calls ≤ 3) ∧
    (∀ (R E : Type) (oracle : Nat → Except E R) (e0 e1 e2 : E),
        oracle 0 = .error e0 → oracle 1 = .error e1 → oracle 2 = .error e2 →
        completion_with_retry oracle =
          { result := .error e2, calls := 3, sleeps := [120, 120] }) ∧
    (∀ (R E : Type) (oracle : Nat → Except E R) (e0 : E) (r : R),
        oracle 0 = .error e0 → oracle 1 = .ok r →
        completion_with_retry oracle = { result := .ok r, calls := 2, sleeps := [120] }) ∧
    (∀ (R E : Type) (convert : Json → Except E R) (k : PyStr) (v : Json) (e : E),
        convert (.obj [(k, v)]) = .error e →
        convertWithUnwrap convert (.obj [(k, v)]) =
          match convert v with
          | .ok r => .ok r
          | .error e2 => .error (.validation e2)) := by
  refine ⟨?_, ?_, ?_, ?_⟩
  · intro R E oracle
    have h := completionWithRetryGo_calls_le oracle 3 3 0 (by omega)
    simpa [completion_with_retry] using h
  · intro R E oracle e0 e1 e2 h0 h1 h2
    have g2 : completionWithRetryGo oracle 3 2 =
        { result := .error e2, calls := 1, sleeps := [] } := by
      unfold completionWithRetryGo
      rw [h2]
      dsimp only
      rw [dif_neg (by omega)]
    have g1 : completionWithRetryGo oracle 3 1 =
        { result := .error e2, calls := 2, sleeps := [120] } := by
      unfold completionWithRetryGo
      rw [h1]
      dsimp only
      rw [dif_pos (by omega)]
      rw [g2]
    show completionWithRetryGo oracle 3 0 = _
    unfold completionWithRetryGo
    rw [h0]
    dsimp only
    rw [dif_pos (by omega)]
    rw [g1]
  · intro R E oracle e0 r h0 h1
    have g1 : completionWithRetryGo oracle 3 1 =
        { result := .ok r, calls := 1, sleeps := [] } := by
      unfold completionWithRetryGo
      rw [h1]
    show completionWithRetryGo oracle 3 0 = _
    unfold completionWithRetryGo
    rw [h0]
    dsimp only
    rw [dif_pos (by omega)]
    rw [g1]
  · intro R E convert k v e he
    unfold convertWithUnwrap
    rw [he]
    dsimp only [firstKeyValue]

/-- Witness for C8: the always-failing oracle exhausts three attempts
and propagates the last error; the wrapped numeric payload fails
validation once and validates after unwrapping. -/
theorem c8_witness :
    completion_with_retry sampleFailOracle =
      { result := .error 2, calls := 3, sleeps := [120, 120] } ∧
    convertWithUnwrap sampleConvert (.obj [("k".toList, .num 5)]) = .ok 1 :=
  ⟨c8_retry_and_unwrap.2.1 Nat Nat sampleFailOracle 0 1 2 rfl rfl rfl,
   (c8_retry_and_unwrap.2.2.2 Nat Nat sampleConvert "k".toList (.num 5) 7 rfl).trans rfl⟩

/-! ## Crawl loop lemmas -/

theorem addNewLinks_spec :
    ∀ (ls cands : List PyStr) (total : Nat),
      ∃ fresh : List PyStr,
        addNewLinks ls cands total = (cands ++ fresh, total + fresh.length) ∧
        ∀ l ∈ fresh, l ∈ ls ∧ l ∉ cands := by
  intro ls
  induction ls with
  | nil =>
    intro cands total
    exact ⟨[], by simp [addNewLinks], by simp⟩
  | cons l ls ih =>
    intro cands total
    by_cases h : l ∈ cands
    · obtain ⟨fresh, heq, hmem⟩ := ih cands total
      refine ⟨fresh, ?_, ?_⟩
      · simp only [addNewLinks]
        rw [if_pos h]
        exact heq
      · intro x hx
        exact ⟨List.mem_cons_of_mem _ (hmem x hx).1, (hmem x hx).2⟩
    · obtain ⟨fresh, heq, hmem⟩ := ih (cands ++ [l]) (total + 1)
      refine ⟨l :: fresh, ?_, ?_⟩
      · simp only [addNewLinks]
        rw [if_neg h, heq]
        simp [List.append_assoc]
        omega
      · intro x hx
        rcases List.mem_cons.mp hx with rfl | hx'
        · exact ⟨List.mem_cons_self _ _, h⟩
        · exact ⟨List.mem_cons_of_mem _ (hmem x hx').1,
            fun hc => (hmem x hx').2 (List.mem_append_left _ hc)⟩

theorem crawlStep_scrape_fail (scrape : PyStr → Option ScrapeJobResult)
    (extractOracle : PyStr → PyStr → List PyStr → Option ExtractJobResult)
    (u : PyStr) (rest : List PyStr) (st : CrawlState) (h : scrape u = none) :
    crawlStep scrape extractOracle u rest st =
      some { st with url_queue := rest, processed_pages := u :: st.processed_pages,
                     pages_crawled := st.pages_crawled + 1 } := by
  unfold crawlStep
  rw [h]

theorem crawlStep_extract_fail (scrape : PyStr → Option ScrapeJobResult)
    (extractOracle : PyStr → PyStr → List PyStr → Option ExtractJobResult)
    (u : PyStr) (rest : List PyStr) (st : CrawlState) (sres : ScrapeJobResult)
    (hs : scrape u = some sres)
    (he : extractOracle u sres.markdown
        ((addNewLinks sres.internal_links st.candidate_internal_links
            st.total_pages_found).1.filter fun l => decide (l ∉ u :: st.processed_pages)) =
      none) :
    crawlStep scrape extractOracle u rest st =
      some { url_queue := rest,
             candidate_internal_links :=
               (addNewLinks sres.internal_links st.candidate_internal_links
                 st.total_pages_found).1,
             processed_pages := u :: st.processed_pages,
             pages_crawled := st.pages_crawled + 1,
             total_pages_found :=
               (addNewLinks sres.internal_links st.candidate_internal_links
                 st.total_pages_found).2 } := by
  unfold crawlStep
  rw [hs]
  dsimp only
  rw [he]

theorem crawlStep_extract_ok_aborts (scrape : PyStr → Option ScrapeJobResult)
    (extractOracle : PyStr → PyStr → List PyStr → Option ExtractJobResult)
    (u : PyStr) (rest : List PyStr) (st : CrawlState) (sres : ScrapeJobResult)
    (r : ExtractJobResult) (hs : scrape u = some sres)
    (he : extractOracle u sres.markdown
        ((addNewLinks sres.internal_links st.candidate_internal_links
            st.total_pages_found).1.filter fun l => decide (l ∉ u :: st.processed_pages)) =
      some r) :
    crawlStep scrape extractOracle u rest st = none := by
  unfold crawlStep
  rw [hs]
  dsimp only
  rw [he]

theorem crawlStep_some_ledger (scrape : PyStr → Option ScrapeJobResult)
    (extractOracle : PyStr → PyStr → List PyStr → Option ExtractJobResult)
    (u : PyStr) (rest : List PyStr) (st st' : CrawlState)
    (h : crawlStep scrape extractOracle u rest st = some st') :
    st'.pages_crawled = st.pages_crawled + 1 ∧
    st'.processed_pages = u :: st.processed_pages ∧
    st'.url_queue = rest := by
  unfold crawlStep at h
  dsimp only at h
  split at h
  · have hst := Option.some.inj h
    subst hst
    exact ⟨rfl, rfl, rfl⟩
  · split at h
    · have hst := Option.some.inj h
      subst hst
      exact ⟨rfl, rfl, rfl⟩
    · cases h

theorem crawlLoop_cons_step (scrape : PyStr → Option ScrapeJobResult)
    (extractOracle : PyStr → PyStr → List PyStr → Option ExtractJobResult)
    (max_pages fuel : Nat) (u : PyStr) (rest : List PyStr) (st st' : CrawlState)
    (hq : st.url_queue = u :: rest) (hlt : st.pages_crawled < max_pages)
    (hstep : crawlStep scrape extractOracle u rest st = some st') :
    crawlLoop scrape extractOracle max_pages (fuel + 1) st =
      crawlLoop scrape extractOracle max_pages fuel st' := by
  conv_lhs => rw [crawlLoop]
  rw [hq]
  dsimp only
  rw [if_pos hlt, hstep]

theorem crawlLoop_cons_abort (scrape : PyStr → Option ScrapeJobResult)
    (extractOracle : PyStr → PyStr → List PyStr → Option ExtractJobResult)
    (max_pages fuel : Nat) (u : PyStr) (rest : List PyStr) (st : CrawlState)
    (hq : st.url_queue = u :: rest) (hlt : st.pages_crawled < max_pages)
    (hstep : crawlStep scrape extractOracle u rest st = none) :
    crawlLoop scrape extractOracle max_pages (fuel + 1) st = .jobError := by
  conv_lhs => rw [crawlLoop]
  rw [hq]
  dsimp only
  rw [if_pos hlt, hstep]

theorem crawlLoop_not_reenqueued (scrape : PyStr → Option ScrapeJobResult)
    (extractOracle : PyStr → PyStr → List PyStr → Option ExtractJobResult)
    (max_pages : Nat) :
    ∀ (fuel : Nat) (st : CrawlState) (u : PyStr) (stFin : CrawlState),
      u ∈ st.processed_pages → u ∉ st.url_queue →
      crawlLoop scrape extractOracle max_pages fuel st = .ok stFin →
      u ∈ stFin.processed_pages ∧ u ∉ stFin.url_queue := by
  intro fuel
  induction fuel with
  | zero =>
    intro st u stFin h1 h2 hres
    simp only [crawlLoop] at hres
    have hst := CrawlEnd.ok.inj hres
    subst hst
    exact ⟨h1, h2⟩
  | succ fuel ih =>
    intro st u stFin h1 h2 hres
    rw [crawlLoop] at hres
    cases hq : st.url_queue with
    | nil =>
      rw [hq] at hres
      have hst := CrawlEnd.ok.inj hres
      subst hst
      exact ⟨h1, h2⟩
    | cons v rest =>
      rw [hq] at hres h2
      dsimp only at hres
      by_cases hlt : st.pages_crawled < max_pages
      · rw [if_pos hlt] at hres
        cases hstep : crawlStep scrape extractOracle v rest st with
        | none =>
          rw [hstep] at hres
          cases hres
        | some st' =>
          rw [hstep] at hres
          dsimp only at hres
          obtain ⟨-, hproc, hqueue⟩ :=
            crawlStep_some_ledger scrape extractOracle v rest st st' hstep
          apply ih st' u stFin _ _ hres
          · rw [hproc]
            exact List.mem_cons_of_mem _ h1
          · rw [hqueue]
            exact fun hc => h2 (List.mem_cons_of_mem _ hc)
      · rw [if_neg hlt] at hres
        have hst := CrawlEnd.ok.inj hres
        subst hst
        refine ⟨h1, ?_⟩
        rw [hq]
        exact h2

theorem crawlLoop_drains (scrape : PyStr → Option ScrapeJobResult)
    (extractOracle : PyStr → PyStr → List PyStr → Option ExtractJobResult)
    (max_pages : Nat) :
    ∀ (fuel : Nat) (st stFin : CrawlState),
      max_pages ≤ st.pages_crawled + fuel →
      crawlLoop scrape extractOracle max_pages fuel st = .ok stFin →
      stFin.pages_crawled < max_pages →
      stFin.url_queue = [] := by
  intro fuel
  induction fuel with
  | zero =>
    intro st stFin hf hres hlt
    simp only [crawlLoop] at hres
    have hst := CrawlEnd.ok.inj hres
    subst hst
    omega
  | succ fuel ih =>
    intro st stFin hf hres hlt
    rw [crawlLoop] at hres
    cases hq : st.url_queue with
    | nil =>
      rw [hq] at hres
      have hst := CrawlEnd.ok.inj hres
      subst hst
      exact hq
    | cons v rest =>
      rw [hq] at hres
      dsimp only at hres
      by_cases hl : st.pages_crawled < max_pages
      · rw [if_pos hl] at hres
        cases hstep : crawlStep scrape extractOracle v rest st with
        | none =>
          rw [hstep] at hres
          cases hres
        | some st' =>
          rw [hstep] at hres
          dsimp only at hres
          apply ih st' stFin _ hres hlt
          rw [(crawlStep_some_ledger scrape extractOracle v rest st st' hstep).1]
          omega
      · rw [if_neg hl] at hres
        have hst := CrawlEnd.ok.inj hres
        subst hst
        exact absurd hlt hl

/-! ## C1 : crawl queue growth and total_pages_found accounting -/

/-- C1 counterexample: the claim's own scenario — max_pages = 1, the
single page scrapes successfully discovering 3 internal links, and the
extract outcome is an ExtractJobResult.  The claim says each of the
result's relevant internal links not already queued is appended to the
back of the queue with total_pages_found incremented per new entry,
and that this crawl terminates with a CrawlJobResult having
pages_crawled = 1 and total_pages_found = 4.  The code instead reads
the nonexistent next_internal_link attribute of the ExtractJobResult
(entities.py 202), raising AttributeError into the crawl-level try: the
crawl terminates as a JobError, no CrawlJobResult exists, and nothing
was appended to the queue for the extract result. -/
theorem c1_counterexample :
    crawl_source scrapeThreeLinks extractOkStd 1 "https://example.com".toList =
      CrawlEnd.jobError := rfl

/-- C1 amended: total_pages_found is accounted only in the scrape
phase.  Every completed iteration dequeued from a successful scrape
appends to the candidate list exactly the scraped internal links that
were not candidates yet, incrementing total_pages_found once per new
candidate, and leaves the queue exactly the popped remainder — nothing
is ever appended to the queue.  An iteration whose extract outcome is
an ExtractJobResult never completes: reading the undeclared
next_internal_link attribute raises AttributeError and the crawl aborts
as a JobError.  The claim's concrete crawl (max_pages = 1, scrape
success with 3 internal links) terminates with a CrawlJobResult having
pages_crawled = 1 and total_pages_found = 4 when its extract step fails
with a JobError. -/
theorem c1_crawl_accounting :
    (∀ (scrape : PyStr → Option ScrapeJobResult)
       (extractOracle : PyStr → PyStr → List PyStr → Option ExtractJobResult)
       (u : PyStr) (rest : List PyStr) (st st' : CrawlState) (sres : ScrapeJobResult),
        scrape u = some sres →
        crawlStep scrape extractOracle u rest st = some st' →
        st'.url_queue = rest ∧
        ∃ fresh : List PyStr,
          st'.candidate_internal_links = st.candidate_internal_links ++ fresh ∧
          st'.total_pages_found = st.total_pages_found + fresh.length ∧
          ∀ l ∈ fresh, l ∈ sres.internal_links ∧ l ∉ st.candidate_internal_links) ∧
    (∀ (scrape : PyStr → Option ScrapeJobResult)
       (extractOracle : PyStr → PyStr → List PyStr → Option ExtractJobResult)
       (u : PyStr) (rest : List PyStr) (st : CrawlState) (sres : ScrapeJobResult)
       (r : ExtractJobResult),
        scrape u = some sres →
        extractOracle u sres.markdown
          ((addNewLinks sres.internal_links st.candidate_internal_links
              st.total_pages_found).1.filter fun l => decide (l ∉ u :: st.processed_pages)) =
          some r →
        crawlStep scrape extractOracle u rest st = none) ∧
    (∃ stFin : CrawlState,
        crawl_source scrapeThreeLinks extractAlwaysFails 1 "https://example.com".toList =
          .ok stFin ∧
        crawlResultOf stFin 1 =
          { pages_crawled := 1, total_pages_found := 4, max_pages_limit := 1 }) := by
  refine ⟨?_, ?_, ?_⟩
  · intro scrape extractOracle u rest st st' sres hs h
    unfold crawlStep at h
    rw [hs] at h
    dsimp only at h
    obtain ⟨fresh, heq, hmem⟩ :=
      addNewLinks_spec sres.internal_links st.candidate_internal_links st.total_pages_found
    split at h
    · have hst := Option.some.inj h
      subst hst
      refine ⟨rfl, fresh, ?_, ?_, hmem⟩
      · dsimp only
        rw [heq]
      · dsimp only
        rw [heq]
    · cases h
  · intro scrape extractOracle u rest st sres r hs he
    exact crawlStep_extract_ok_aborts scrape extractOracle u rest st sres r hs he
  · exact ⟨_, rfl, rfl⟩

/-- Witness for C1's amended statement at concrete inputs: the
completed failing-extract iteration books the three scraped links into
the candidates and total_pages_found, and the succeeding-extract
iteration aborts. -/
theorem c1_witness :
    (({ url_queue := [],
        candidate_internal_links := ["https://example.com/a".toList,
          "https://example.com/b".toList, "https://example.com/c".toList],
        processed_pages := ["https://example.com".toList], pages_crawled := 1,
        total_pages_found := 4 } : CrawlState).url_queue = [] ∧
     ∃ fresh : List PyStr,
       ({ url_queue := [],
          candidate_internal_links := ["https://example.com/a".toList,
            "https://example.com/b".toList, "https://example.com/c".toList],
          processed_pages := ["https://example.com".toList], pages_crawled := 1,
          total_pages_found := 4 } : CrawlState).candidate_internal_links = [] ++ fresh ∧
       ({ url_queue := [],
          candidate_internal_links := ["https://example.com/a".toList,
            "https://example.com/b".toList, "https://example.com/c".toList],
          processed_pages := ["https://example.com".toList], pages_crawled := 1,
          total_pages_found := 4 } : CrawlState).total_pages_found = 1 + fresh.length ∧
       ∀ l ∈ fresh,
         l ∈ ["https://example.com/a".toList, "https://example.com/b".toList,
              "https://example.com/c".toList] ∧ l ∉ ([] : List PyStr)) ∧
    crawlStep scrapeThreeLinks extractOkStd "https://example.com".toList []
      { url_queue := [], candidate_internal_links := [], processed_pages := [],
        pages_crawled := 0, total_pages_found := 1 } = none :=
  ⟨c1_crawl_accounting.1 scrapeThreeLinks extractAlwaysFails "https://example.com".toList []
      { url_queue := [], candidate_internal_links := [], processed_pages := [],
        pages_crawled := 0, total_pages_found := 1 }
      { url_queue := [],
        candidate_internal_links := ["https://example.com/a".toList,
          "https://example.com/b".toList, "https://example.com/c".toList],
        processed_pages := ["https://example.com".toList], pages_crawled := 1,
        total_pages_found := 4 }
      { markdown := "m".toList,
        internal_links := ["https://example.com/a".toList, "https://example.com/b".toList,
                           "https://example.com/c".toList] } rfl rfl,
   c1_crawl_accounting.2.1 scrapeThreeLinks extractOkStd "https://example.com".toList []
      { url_queue := [], candidate_internal_links := [], processed_pages := [],
        pages_crawled := 0, total_pages_found := 1 }
      { markdown := "m".toList,
        internal_links := ["https://example.com/a".toList, "https://example.com/b".toList,
                           "https://example.com/c".toList] }
      { summary := "s".toList, key_facts := [], key_quotes := [], key_figures := [],
        trustworthiness := [], relevancy := .HIGH, input_tokens := 0, output_tokens := 0,
        prompt := [], model := [] } rfl rfl⟩

/-! ## C3 : pages_crawled bookkeeping and failure resilience -/

/-- C3: the claim states the code's own documented intent —
pages_crawled += 1 stands unconditionally at the end of the loop body
(entities.py 206) and the comment at line 201 documents continuing the
loop after a successful extract — and the failure paths behave exactly
as claimed: every completed iteration increments pages_crawled exactly
once whatever its scrape and extract outcomes were; a scrape failure
only advances the queue, the processed set and the counter, leaving
candidates and totals untouched, and the loop continues on the
remaining urls; a dequeued (processed) url never reappears in the
queue of a crawl that completes; and a completed crawl whose final
count is below max_pages has drained its queue, so every queued url
was attempted.  The bug: at any iteration whose extract outcome IS an
ExtractJobResult the code reads the undeclared next_internal_link
attribute (entities.py 202), raising AttributeError before the
increment, and the crawl aborts as a JobError — the final conjunct
evaluates the code at that failing input. -/
theorem c3_crawl_failure_resilience :
    (∀ (scrape : PyStr → Option ScrapeJobResult)
       (extractOracle : PyStr → PyStr → List PyStr → Option ExtractJobResult)
       (u : PyStr) (rest : List PyStr) (st st' : CrawlState),
        crawlStep scrape extractOracle u rest st = some st' →
        st'.pages_crawled = st.pages_crawled + 1) ∧
    (∀ (scrape : PyStr → Option ScrapeJobResult)
       (extractOracle : PyStr → PyStr → List PyStr → Option ExtractJobResult)
       (max_pages fuel : Nat) (u : PyStr) (rest : List PyStr) (st : CrawlState),
        scrape u = none → st.url_queue = u :: rest → st.pages_crawled < max_pages →
        crawlLoop scrape extractOracle max_pages (fuel + 1) st =
          crawlLoop scrape extractOracle max_pages fuel
            { st with url_queue := rest, processed_pages := u :: st.processed_pages,
                      pages_crawled := st.pages_crawled + 1 }) ∧
    (∀ (scrape : PyStr → Option ScrapeJobResult)
       (extractOracle : PyStr → PyStr → List PyStr → Option ExtractJobResult)
       (max_pages fuel : Nat) (st : CrawlState) (u : PyStr) (stFin : CrawlState),
        u ∈ st.processed_pages → u ∉ st.url_queue →
        crawlLoop scrape extractOracle max_pages fuel st = .ok stFin →
        u ∉ stFin.url_queue) ∧
    (∀ (scrape : PyStr → Option ScrapeJobResult)
       (extractOracle : PyStr → PyStr → List PyStr → Option ExtractJobResult)
       (max_pages : Nat) (seed : PyStr) (stFin : CrawlState),
        crawl_source scrape extractOracle max_pages seed = .ok stFin →
        stFin.pages_crawled < max_pages →
        stFin.url_queue = []) ∧
    crawl_source scrapeThreeLinks extractOkStd 2 "https://example.com".toList =
      CrawlEnd.jobError := by
  refine ⟨?_, ?_, ?_, ?_, rfl⟩
  · intro scrape extractOracle u rest st st' h
    exact (crawlStep_some_ledger scrape extractOracle u rest st st' h).1
  · intro scrape extractOracle max_pages fuel u rest st hs hq hlt
    exact crawlLoop_cons_step scrape extractOracle max_pages fuel u rest st _ hq hlt
      (crawlStep_scrape_fail scrape extractOracle u rest st hs)
  · intro scrape extractOracle max_pages fuel st u stFin h1 h2 hres
    exact (crawlLoop_not_reenqueued scrape extractOracle max_pages fuel st u stFin
      h1 h2 hres).2
  · intro scrape extractOracle max_pages seed stFin hres hlt
    exact crawlLoop_drains scrape extractOracle max_pages max_pages _ stFin (by omega)
      hres hlt

/-- Witness for C3 at concrete oracles: a completed step increments
the counter; a failing scrape on the first of two queued urls advances
the loop to the second; the crawl of an always-failing source drains
its queue; an already-processed url never reappears. -/
theorem c3_witness :
    ({ url_queue := [], candidate_internal_links := [],
       processed_pages := ["https://example.com".toList], pages_crawled := 1,
       total_pages_found := 1 } : CrawlState).pages_crawled = 0 + 1 ∧
    crawlLoop scrapeAlwaysFails extractAlwaysFails 2 2
        { url_queue := ["https://example.com".toList, "https://example.com/r".toList],
          candidate_internal_links := [], processed_pages := [], pages_crawled := 0,
          total_pages_found := 1 } =
      crawlLoop scrapeAlwaysFails extractAlwaysFails 2 1
        { url_queue := ["https://example.com/r".toList], candidate_internal_links := [],
          processed_pages := ["https://example.com".toList], pages_crawled := 1,
          total_pages_found := 1 } ∧
    ({ url_queue := [], candidate_internal_links := [],
       processed_pages := ["https://example.com".toList], pages_crawled := 1,
       total_pages_found := 1 } : CrawlState).url_queue = [] ∧
    "https://x.com".toList ∉
      ({ url_queue := [], candidate_internal_links := [],
         processed_pages := ["https://example.com".toList, "https://x.com".toList],
         pages_crawled := 1, total_pages_found := 1 } : CrawlState).url_queue :=
  ⟨c3_crawl_failure_resilience.1 scrapeAlwaysFails extractAlwaysFails
      "https://example.com".toList []
      { url_queue := ["https://example.com".toList], candidate_internal_links := [],
        processed_pages := [], pages_crawled := 0, total_pages_found := 1 }
      { url_queue := [], candidate_internal_links := [],
        processed_pages := ["https://example.com".toList], pages_crawled := 1,
        total_pages_found := 1 } rfl,
   c3_crawl_failure_resilience.2.1 scrapeAlwaysFails extractAlwaysFails 2 1
      "https://example.com".toList ["https://example.com/r".toList]
      { url_queue := ["https://example.com".toList, "https://example.com/r".toList],
        candidate_internal_links := [], processed_pages := [], pages_crawled := 0,
        total_pages_found := 1 } rfl rfl (by decide),
   c3_crawl_failure_resilience.2.2.2.1 scrapeAlwaysFails extractAlwaysFails 5
      "https://example.com".toList
      { url_queue := [], candidate_internal_links := [],
        processed_pages := ["https://example.com".toList], pages_crawled := 1,
        total_pages_found := 1 } rfl (by decide),
   c3_crawl_failure_resilience.2.2.1 scrapeAlwaysFails extractAlwaysFails 1 1
      { url_queue := ["https://example.com".toList], candidate_internal_links := [],
        processed_pages := ["https://x.com".toList], pages_crawled := 0,
        total_pages_found := 1 } "https://x.com".toList
      { url_queue := [], candidate_internal_links := [],
        processed_pages := ["https://example.com".toList, "https://x.com".toList],
        pages_crawled := 1, total_pages_found := 1 } (by decide) (by decide) rfl⟩
